import Mathlib

/-!
Verification of the Jobs data-access layer (express-jobly).

The definitions below are a shallow embedding of `src/models/jobs.js`:
the query-building code of `Jobs.findAll` is transcribed at the level of
the strings and parameter lists it constructs, and the row-level effect of
`Jobs.create`, `Jobs.get`, `Jobs.update` and `Jobs.remove` is modelled as
explicit state passing over a `Db` value holding the `jobs` and
`companies` tables.  Returned rows are modelled as association lists
(`JsObj`) so that presence and absence of object keys — `delete
job.companyHandle`, `job.company = undefined`, result-field names — are
real propositions about the result.
-/

namespace Jobly

/-- A JavaScript value, as far as the rows of this layer need:
`null` (SQL NULL surfaced by the driver), `undefined`
(an absent `rows[0]`), numbers, strings, and nested objects
(the embedded company row). -/
inductive JsVal : Type where
  | vnull : JsVal
  | vundef : JsVal
  | vint : Int → JsVal
  | vrat : Rat → JsVal
  | vstr : String → JsVal
  | vobj : List (String × JsVal) → JsVal

/-- A JavaScript object, modelled as an association list so that key
presence, key order and key deletion are observable. -/
abbrev JsObj := List (String × JsVal)

/-- Modelled from the spec: `expressError.js` is not under `src/`; only its
importers are.  Section 7 of the spec gives the taxonomy: `BadRequest`
(status 400) and `NotFound` (status 404) are the two modelled failure
kinds, each carrying a message.  `ExpressError(message, status)` is the
general constructor the code also uses directly. -/
structure ExpressErr where
  message : String
  status : Nat
deriving DecidableEq

/-- The `jobs` table row: `jobs(id serial primary key, title text not null,
salary integer, equity numeric, company_handle text not null)`. -/
structure JobRow where
  id : Int
  title : String
  salary : Option Int
  equity : Option Rat
  companyHandle : String
deriving DecidableEq

/-- The `companies` table row:
`companies(handle text primary key, name text, description text,
num_employees integer, logo_url text)`. -/
structure CompanyRow where
  handle : String
  name : String
  description : String
  numEmployees : Option Int
  logoUrl : Option String
deriving DecidableEq

/-- The relational store: the two tables this layer touches, plus the
store-generated serial counter for `jobs.id` (the core never supplies an
id; the serial column does). -/
structure Db where
  jobs : List JobRow
  companies : List CompanyRow
  nextId : Int
deriving DecidableEq

/-- The search-filter object accepted by `findAll`:
`{ title?, minSalary?, hasEquity? }`, every field optional. -/
structure Filter where
  title : Option String
  minSalary : Option Int
  hasEquity : Option Bool
deriving DecidableEq

/-- One bound query parameter: `findAll` pushes either a number
(`minSalary`) or a string (the `%title%` pattern). -/
inductive SqlParam : Type where
  | num : Int → SqlParam
  | str : String → SqlParam
deriving DecidableEq

/-- What `findAll` hands to `db.query`: the final statement text, and the
two arrays the code builds it from (`whereExp` and `queryVal`). -/
structure FindAllResult where
  query : String
  whereExp : List String
  queryVal : List SqlParam
deriving DecidableEq

/-- The template literal `findAll` starts from, verbatim — including the
trailing comma after `company_handle AS "companyHandle"` that directly
precedes `FROM`. -/
def baseSelectJobs : String :=
  "\n     SELECT title, \n            salary, \n            equity, \n            company_handle AS \"companyHandle\",\n     FROM jobs"

/-- `if (minSalary < 0)`: in JavaScript `undefined < 0` is `false`, so the
check fires exactly when `minSalary` is present and negative. -/
def minSalaryNegative (f : Filter) : Bool :=
  match f.minSalary with
  | some m => decide (m < 0)
  | none => false

/-- The three conditional pushes of `findAll`, in source order
(`minSalary`, then `hasEquity`, then `title`): each step extends
`queryVal` and `whereExp`; a placeholder number is `queryVal.length`
taken after the corresponding push, exactly as in the code. -/
def buildWhere (f : Filter) : List SqlParam × List String :=
  let acc0 : List SqlParam × List String := ([], [])
  let acc1 :=
    match f.minSalary with
    | some m =>
        let qv := acc0.1 ++ [SqlParam.num m]
        (qv, acc0.2 ++ ["salary >= $" ++ toString qv.length])
    | none => acc0
  let acc2 :=
    if f.hasEquity = some true then (acc1.1, acc1.2 ++ ["equity > 0"])
    else acc1
  match f.title with
  | some t =>
      let qv := acc2.1 ++ [SqlParam.str ("%" ++ t ++ "%")]
      (qv, acc2.2 ++ ["title ILIKE $" ++ toString qv.length])
  | none => acc2

/-- `Jobs.findAll(searchFilters)`, up to the point where `db.query(query,
queryVal)` is issued: either the synchronous
`ExpressError("Invalid Constraints", 400)` (no query is built, so no I/O
happens), or the statement text plus the parameter list handed to the
store. -/
def findAll (f : Filter) : Except ExpressErr FindAllResult :=
  if minSalaryNegative f then
    Except.error { message := "Invalid Constraints", status := 400 }
  else
    let acc := buildWhere f
    let withWhere :=
      if acc.2.length > 0 then
        baseSelectJobs ++ " WHERE " ++ String.intercalate " AND " acc.2
      else baseSelectJobs
    Except.ok
      { query := withWhere ++ " ORDER BY title"
        whereExp := acc.2
        queryVal := acc.1 }

/-- `null` for a missing integer column value, the number otherwise (what
the driver reports for `salary`). -/
def optIntVal : Option Int → JsVal
  | none => JsVal.vnull
  | some n => JsVal.vint n

/-- `null` for a missing numeric column value, the number otherwise (what
the driver reports for `equity`). -/
def optRatVal : Option Rat → JsVal
  | none => JsVal.vnull
  | some q => JsVal.vrat q

/-- `null` for a missing text column value, the string otherwise. -/
def optStrVal : Option String → JsVal
  | none => JsVal.vnull
  | some s => JsVal.vstr s

/-- The row object produced by
`SELECT id, title, salary, equity, company_handle AS "companyHandle"`:
the alias is double-quoted, so the driver reports the field name with its
capital H preserved. -/
def jobSelectObj (r : JobRow) : JsObj :=
  [("id", JsVal.vint r.id), ("title", JsVal.vstr r.title),
   ("salary", optIntVal r.salary), ("equity", optRatVal r.equity),
   ("companyHandle", JsVal.vstr r.companyHandle)]

/-- The row object produced by
`SELECT handle, name, description, num_employees AS "numEmployees",
logo_url AS "logoUrl"` on the companies table. -/
def companySelectObj (c : CompanyRow) : JsObj :=
  [("handle", JsVal.vstr c.handle), ("name", JsVal.vstr c.name),
   ("description", JsVal.vstr c.description),
   ("numEmployees", optIntVal c.numEmployees),
   ("logoUrl", optStrVal c.logoUrl)]

/-- The input object of `Jobs.create`:
`{ title, salary, equity, companyHandle }` (the code reads exactly these
four properties of `data`). -/
structure CreateInput where
  title : String
  salary : Option Int
  equity : Option Rat
  companyHandle : String
deriving DecidableEq

/-- `Jobs.create(data)`: `INSERT INTO jobs (title, salary, equity,
company_handle) VALUES ($1, $2, $3, $4) RETURNING id, title, salary,
equity, company_handle AS "companyHandle"`.  The four parameters are
passed straight from `data` — the method performs no validation of
`salary` or `equity` — and the serial column assigns the id.  Returns
`result.rows[0]` and the store state after the insert. -/
def create (db : Db) (data : CreateInput) : JsObj × Db :=
  let newRow : JobRow :=
    { id := db.nextId, title := data.title, salary := data.salary,
      equity := data.equity, companyHandle := data.companyHandle }
  (jobSelectObj newRow,
   { db with jobs := db.jobs ++ [newRow], nextId := db.nextId + 1 })

/-- `Jobs.get(id)`: `SELECT … WHERE id = $1` on jobs; `rows[0]` absent
throws `NotFoundError` with message `No job: id`.  Otherwise a second
`SELECT … WHERE handle = $1` on companies runs with the job's
`companyHandle`; then `delete job.companyHandle` removes that key and
`job.company = companyRes.rows[0]` appends the `company` key — whose value
is `undefined` when the companies lookup matched no row. -/
def get (db : Db) (id : Int) : Except ExpressErr JsObj :=
  match db.jobs.find? (fun r => r.id == id) with
  | none => Except.error { message := "No job: " ++ toString id, status := 404 }
  | some r =>
      let companyVal :=
        match db.companies.find? (fun c => c.handle == r.companyHandle) with
        | none => JsVal.vundef
        | some c => JsVal.vobj (companySelectObj c)
      Except.ok
        ((jobSelectObj r).filter (fun kv => kv.1 ≠ "companyHandle")
          ++ [("company", companyVal)])

/-- Modelled from the spec: `helpers/sql.js` (`sqlForPartialUpdate`) is not
under `src/`; only its caller `Jobs.update` is.  Spec section 4.2: an empty
input map fails with `BadRequest` ("no data"); otherwise each entry emits
one `column = placeholder` assignment, placeholders numbered sequentially
from 1 in the mapping's own insertion order, and the output is the SET
clause together with the values in the same order.  The name-translation
table is injectable with identity as the default; `Jobs.update` supplies
none, so the identity default applies here. -/
def sqlForPartialUpdate (data : JsObj) : Except ExpressErr (String × List JsVal) :=
  if data.length = 0 then
    Except.error { message := "no data", status := 400 }
  else
    Except.ok
      (String.intercalate ", "
        ((List.range data.length).zip data |>.map
          (fun p => p.2.1 ++ "=$" ++ toString (p.1 + 1))),
       data.map Prod.snd)

/-- The UPDATE statement `Jobs.update` assembles around the SET clause.
The RETURNING list ends in `company_handle AS companyHandle` with the
alias NOT double-quoted — unlike every other query in the file — so the
store folds the unquoted identifier to lower case and the driver reports
the field as `companyhandle`. -/
def updateQuerySql (setCols : String) (numValues : Nat) : String :=
  "UPDATE jobs \n                      SET " ++ setCols ++
  " \n                      WHERE id = $" ++ toString (numValues + 1) ++
  " \n                      RETURNING id, \n                           title, \n                           salary, \n                           equity, \n                           company_handle AS companyHandle"

/-- The row object produced by that RETURNING list: because the alias
`companyHandle` is unquoted, the identifier is case-folded and the
resulting field name is all lower-case `companyhandle`. -/
def jobUpdateReturningObj (r : JobRow) : JsObj :=
  [("id", JsVal.vint r.id), ("title", JsVal.vstr r.title),
   ("salary", optIntVal r.salary), ("equity", optRatVal r.equity),
   ("companyhandle", JsVal.vstr r.companyHandle)]

/-- The effect of one `column = value` assignment of the SET clause on a
jobs row.  Only the columns whose public name coincides with the storage
column (`title`, `salary`, `equity`) are modelled: a patch naming any
other key would make the UPDATE reference a nonexistent column (the
identity name translation emits the key verbatim), a store-level failure
outside this model, so the theorems below restrict patches to these keys. -/
def setField (r : JobRow) (kv : String × JsVal) : JobRow :=
  match kv with
  | ("title", JsVal.vstr s) => { r with title := s }
  | ("salary", JsVal.vint n) => { r with salary := some n }
  | ("salary", JsVal.vnull) => { r with salary := none }
  | ("equity", JsVal.vrat q) => { r with equity := some q }
  | ("equity", JsVal.vnull) => { r with equity := none }
  | _ => r

/-- The whole SET clause applied to a row, assignments in patch order. -/
def applyPatch (r : JobRow) (data : JsObj) : JobRow :=
  data.foldl setField r

/-- `Jobs.update(id, data)`: first `sqlForPartialUpdate(data)` (its
`BadRequest` propagates before any statement is sent), then the UPDATE of
`updateQuerySql` scoped to `WHERE id = $(values.length + 1)`.  `rows[0]`
absent — no row matched the id — throws `NotFoundError` with message
`No company: id` (sic).  Otherwise returns the RETURNING row (post-update
values, no company lookup) together with the store state after the
update. -/
def update (db : Db) (id : Int) (data : JsObj) :
    Except ExpressErr (JsObj × Db) :=
  match sqlForPartialUpdate data with
  | Except.error e => Except.error e
  | Except.ok _ =>
      match db.jobs.find? (fun r => r.id == id) with
      | none =>
          Except.error { message := "No company: " ++ toString id, status := 404 }
      | some r =>
          Except.ok
            (jobUpdateReturningObj (applyPatch r data),
             { db with jobs :=
                db.jobs.map (fun x => if x.id == id then applyPatch x data else x) })

/-- `Jobs.remove(id)`: `DELETE FROM jobs WHERE id = $1 RETURNING id`;
`rows[0]` absent — nothing was deleted — throws `NotFoundError` with
message `No job: id`.  On success the method returns `undefined`; the
model returns the store state after the delete (success is the absence of
failure). -/
def remove (db : Db) (id : Int) : Except ExpressErr Db :=
  if db.jobs.any (fun r => r.id == id) then
    Except.ok { db with jobs := db.jobs.filter (fun r => r.id != id) }
  else
    Except.error { message := "No job: " ++ toString id, status := 404 }

/-! ### Helper lemmas and example stores -/

/-- The equity condition differs from any salary condition: their fixed
prefixes already have different lengths. -/
theorem ne_equity_salary (s : String) : "equity > 0" ≠ "salary >= $" ++ s := by
  intro hcontra
  have h2 := congrArg String.length hcontra
  rw [String.length_append] at h2
  have hl : ("equity > 0" : String).length = 10 := by decide
  have hr : ("salary >= $" : String).length = 11 := by decide
  rw [hl, hr] at h2
  omega

/-- The equity condition differs from any title condition: their fixed
prefixes already have different lengths. -/
theorem ne_equity_title (s : String) : "equity > 0" ≠ "title ILIKE $" ++ s := by
  intro hcontra
  have h2 := congrArg String.length hcontra
  rw [String.length_append] at h2
  have hl : ("equity > 0" : String).length = 10 := by decide
  have hr : ("title ILIKE $" : String).length = 13 := by decide
  rw [hl, hr] at h2
  omega

/-- Inversion: a successful `findAll` hands back exactly the `whereExp` and
`queryVal` arrays that `buildWhere` produced. -/
theorem findAll_ok_inv (f : Filter) (r : FindAllResult)
    (h : findAll f = Except.ok r) :
    r.whereExp = (buildWhere f).2 ∧ r.queryVal = (buildWhere f).1 := by
  unfold findAll at h
  by_cases hneg : minSalaryNegative f
  · rw [if_pos hneg] at h
    cases h
  · rw [if_neg hneg] at h
    cases h
    exact ⟨rfl, rfl⟩

/-- An example store: one job referencing one existing company. -/
def exCompany : CompanyRow :=
  { handle := "acme", name := "Acme", description := "d",
    numEmployees := some 2, logoUrl := none }

/-- An example job row belonging to `exCompany`. -/
def exJob : JobRow :=
  { id := 1, title := "t", salary := some 3, equity := none,
    companyHandle := "acme" }

/-- The example store holding `exJob` and `exCompany`. -/
def exDb : Db := { jobs := [exJob], companies := [exCompany], nextId := 2 }

/-- An example store whose single job references a company that is absent
from the companies table. -/
def exDbNoCompany : Db := { jobs := [exJob], companies := [], nextId := 2 }

/-! ### The claims -/

/-- Claim C1: the spec says `findAll` returns all matching jobs sorted
ascending by title, but the statement the code builds and sends is not
executable: the SELECT list ends with a comma immediately before `FROM`
(shown verbatim by the split literal below), which the store rejects as a
syntax error, so `findAll({})` never returns any rows.  This theorem
evaluates the builder at the empty filter and exhibits the malformed
statement. -/
theorem findAll_empty_filter_eval :
    findAll { title := none, minSalary := none, hasEquity := none } =
      Except.ok
        { query :=
            "\n     SELECT title, \n            salary, \n            equity, \n            company_handle AS \"companyHandle\"" ++
            ",\n     FROM jobs" ++ " ORDER BY title",
          whereExp := [], queryVal := [] } := by
  rfl

/-- Claim C5: a present, negative `minSalary` makes `findAll` fail with the
synchronous status-400 (`BadRequest`) failure `ExpressError("Invalid
Constraints", 400)`; no `FindAllResult` is produced, so no statement is
ever handed to the store. -/
theorem findAll_negative_minSalary (f : Filter) (m : Int)
    (hm : f.minSalary = some m) (hneg : m < 0) :
    findAll f = Except.error { message := "Invalid Constraints", status := 400 } := by
  unfold findAll minSalaryNegative
  rw [hm]
  simp [hneg]

/-- Witness for C5 at the concrete filter `{minSalary: -1}`. -/
theorem findAll_negative_minSalary_witness :
    ((-1 : Int) < 0) ∧
    findAll { title := none, minSalary := some (-1), hasEquity := none } =
      Except.error { message := "Invalid Constraints", status := 400 } :=
  ⟨by decide,
   findAll_negative_minSalary
     { title := none, minSalary := some (-1), hasEquity := none } (-1) rfl (by decide)⟩

/-- Claim C6: on every successful `findAll`, the equity condition
`equity > 0` is in the WHERE expression list if and only if the filter has
`hasEquity === true`; absent or `false` adds nothing. -/
theorem findAll_equity_condition_iff (f : Filter) (r : FindAllResult)
    (h : findAll f = Except.ok r) :
    ("equity > 0" ∈ r.whereExp) ↔ f.hasEquity = some true := by
  rw [(findAll_ok_inv f r h).1]
  obtain ⟨t, m, e⟩ := f
  rcases m with _ | mv <;> rcases t with _ | ts <;> rcases e with _ | (_ | _) <;>
    simp [buildWhere, ne_equity_salary, ne_equity_title]

/-- Witness for C6 at the concrete filter `{hasEquity: true}`. -/
theorem findAll_equity_condition_iff_witness :
    ("equity > 0" ∈ (["equity > 0"] : List String)) ↔
      ((some true : Option Bool) = some true) :=
  findAll_equity_condition_iff
    { title := none, minSalary := none, hasEquity := some true }
    { query := baseSelectJobs ++ " WHERE equity > 0 ORDER BY title",
      whereExp := ["equity > 0"], queryVal := [] } rfl

/-- Counterexample to claim C7 as stated: at the filter
`{hasEquity: true}` the builder emits one WHERE condition but zero query
parameters, so it is false that each present condition contributes exactly
one parameter. -/
theorem findAll_hasEquity_condition_without_parameter :
    findAll { title := none, minSalary := none, hasEquity := some true } =
      Except.ok
        { query := baseSelectJobs ++ " WHERE equity > 0 ORDER BY title",
          whereExp := ["equity > 0"], queryVal := [] } ∧
    (["equity > 0"] : List String).length ≠ ([] : List SqlParam).length :=
  ⟨rfl, by decide⟩

/-- Claim C7 as amended: on every successful `findAll`, the `minSalary`
and `title` conditions each contribute exactly one parameter, in the fixed
evaluation order `minSalary` then `title`; the `minSalary` placeholder is
`$1` and the `title` placeholder number equals the final parameter count,
whose last entry is the title pattern — so placeholder numbers agree with
the positions of the values — while the equity condition contributes no
parameter at all. -/
theorem findAll_param_numbering (f : Filter) (r : FindAllResult)
    (h : findAll f = Except.ok r) :
    r.queryVal = (f.minSalary.map SqlParam.num).toList ++
        (f.title.map (fun s => SqlParam.str ("%" ++ s ++ "%"))).toList ∧
    (∀ m, f.minSalary = some m → "salary >= $1" ∈ r.whereExp) ∧
    (∀ s, f.title = some s →
       ("title ILIKE $" ++ toString r.queryVal.length) ∈ r.whereExp ∧
       r.queryVal.getLast? = some (SqlParam.str ("%" ++ s ++ "%"))) ∧
    r.whereExp.length = r.queryVal.length +
        (if f.hasEquity = some true then 1 else 0) := by
  obtain ⟨hwe, hqv⟩ := findAll_ok_inv f r h
  rw [hwe, hqv]
  obtain ⟨t, m, e⟩ := f
  rcases m with _ | mv <;> rcases t with _ | ts <;> rcases e with _ | (_ | _) <;>
    simp [buildWhere] <;>
    first
      | rfl
      | (left ; rfl)

/-- Witness for C7 (amended) at the concrete filter
`{title: "a", minSalary: 5, hasEquity: true}`: the title placeholder is
`$2` and the pattern `%a%` is the last of the two parameters. -/
theorem findAll_param_numbering_witness :
    ("title ILIKE $2" ∈ (["salary >= $1", "equity > 0", "title ILIKE $2"] : List String)) ∧
    ([SqlParam.num 5, SqlParam.str "%a%"].getLast? = some (SqlParam.str "%a%")) := by
  have h := findAll_param_numbering
    { title := some "a", minSalary := some 5, hasEquity := some true }
    { query := baseSelectJobs ++
        " WHERE salary >= $1 AND equity > 0 AND title ILIKE $2 ORDER BY title",
      whereExp := ["salary >= $1", "equity > 0", "title ILIKE $2"],
      queryVal := [SqlParam.num 5, SqlParam.str "%a%"] } rfl
  obtain ⟨-, -, h3, -⟩ := h
  exact h3 "a" rfl

/-- Claim C8: `update(id, {})` fails with the `BadRequest` ("no data")
failure of the partial-update builder; the failure is independent of the
store state (the equation holds for every `db`), reflecting that it is
raised before any statement is sent. -/
theorem update_empty_patch_bad_request (db : Db) (id : Int) :
    update db id [] = Except.error { message := "no data", status := 400 } := by
  rfl

/-- Unfolding `get` when the jobs lookup misses. -/
theorem get_none_eq (db : Db) (id : Int)
    (hf : db.jobs.find? (fun x => x.id == id) = none) :
    get db id = Except.error { message := "No job: " ++ toString id, status := 404 } := by
  unfold get
  rw [hf]

/-- Unfolding `get` when the jobs lookup hits row `r`: the result is the
selected row without its `companyHandle` key, extended with the `company`
key holding whatever the companies lookup produced. -/
theorem get_some_eq (db : Db) (id : Int) (r : JobRow)
    (hf : db.jobs.find? (fun x => x.id == id) = some r) :
    get db id =
      Except.ok
        ((jobSelectObj r).filter (fun kv => kv.1 ≠ "companyHandle") ++
          [("company",
            match db.companies.find? (fun c => c.handle == r.companyHandle) with
            | none => JsVal.vundef
            | some c => JsVal.vobj (companySelectObj c))]) := by
  unfold get
  rw [hf]

/-- Unfolding `update` when the patch is non-empty and the jobs lookup hits
row `r`: the RETURNING row of the patched record, and the store after the
scoped UPDATE. -/
theorem update_some_eq (db : Db) (id : Int) (data : JsObj) (r : JobRow)
    (hne : data.length ≠ 0)
    (hf : db.jobs.find? (fun x => x.id == id) = some r) :
    update db id data =
      Except.ok (jobUpdateReturningObj (applyPatch r data),
        { db with jobs :=
            db.jobs.map fun x => if x.id == id then applyPatch x data else x }) := by
  cases hsp : sqlForPartialUpdate data with
  | error e =>
      unfold sqlForPartialUpdate at hsp
      rw [if_neg hne] at hsp
      exact Except.noConfusion hsp
  | ok p =>
      unfold update
      simp only [hsp, hf]

/-- Claim C2: `get` fails with `NotFound` (status 404, message
`No job: id`) exactly when no jobs row has the requested id; when the row
and its company both exist, the result is the job enriched with the
embedded company object, and the raw `companyHandle` key is not among the
result's keys (third conjunct: it is absent from every successful
result). -/
theorem get_not_found_iff_and_enrichment (db : Db) (id : Int) :
    (get db id = Except.error { message := "No job: " ++ toString id, status := 404 } ↔
       ∀ r ∈ db.jobs, r.id ≠ id) ∧
    (∀ r c, db.jobs.find? (fun x => x.id == id) = some r →
       db.companies.find? (fun x => x.handle == r.companyHandle) = some c →
       get db id =
         Except.ok [("id", JsVal.vint r.id), ("title", JsVal.vstr r.title),
                    ("salary", optIntVal r.salary), ("equity", optRatVal r.equity),
                    ("company", JsVal.vobj (companySelectObj c))]) ∧
    (∀ o, get db id = Except.ok o → "companyHandle" ∉ o.map Prod.fst) := by
  refine ⟨?_, ?_, ?_⟩
  · cases hf : db.jobs.find? (fun x => x.id == id) with
    | none =>
        rw [get_none_eq db id hf]
        have hall := List.find?_eq_none.mp hf
        exact ⟨fun _ r hr => by simpa using hall r hr, fun _ => rfl⟩
    | some r =>
        rw [get_some_eq db id r hf]
        have hmem := List.mem_of_find?_eq_some hf
        have hid : r.id = id := by simpa using List.find?_some hf
        constructor
        · intro hcontra
          exact Except.noConfusion hcontra
        · intro hall
          exact absurd hid (hall r hmem)
  · intro r c hf hc
    rw [get_some_eq db id r hf, hc]
    rfl
  · intro o ho
    cases hf : db.jobs.find? (fun x => x.id == id) with
    | none =>
        rw [get_none_eq db id hf] at ho
        exact Except.noConfusion ho
    | some r =>
        rw [get_some_eq db id r hf] at ho
        have hObj := Except.ok.inj ho
        rw [← hObj]
        show "companyHandle" ∉ (["id", "title", "salary", "equity", "company"] : List String)
        decide

/-- Witness for C2: on the example store, `get 1` yields the enriched
object without a `companyHandle` key, and `get` on a store without that
job id yields `NotFound`. -/
theorem get_enrichment_witness :
    (get exDb 1 =
      Except.ok [("id", JsVal.vint 1), ("title", JsVal.vstr "t"),
                 ("salary", JsVal.vint 3), ("equity", JsVal.vnull),
                 ("company", JsVal.vobj
                   [("handle", JsVal.vstr "acme"), ("name", JsVal.vstr "Acme"),
                    ("description", JsVal.vstr "d"),
                    ("numEmployees", JsVal.vint 2), ("logoUrl", JsVal.vnull)])]) ∧
    (get { jobs := [], companies := [exCompany], nextId := 2 } 1 =
      Except.error { message := "No job: 1", status := 404 }) :=
  ⟨(get_not_found_iff_and_enrichment exDb 1).2.1 exJob exCompany rfl rfl,
   (get_not_found_iff_and_enrichment
       { jobs := [], companies := [exCompany], nextId := 2 } 1).1.mpr (by decide)⟩

/-- Claim C3 (exhibiting the code bug): updating an existing row returns
the RETURNING row whose last key is the case-folded `companyhandle` — the
RETURNING alias `company_handle AS companyHandle` is unquoted, so the
identifier is folded to lower case — not the `companyHandle` key the claim
states (second conjunct: the claimed key is absent from the key list the
code produces). -/
theorem update_returning_key_case_folded :
    update exDb 1 [("salary", JsVal.vint 500)] =
      Except.ok ([("id", JsVal.vint 1), ("title", JsVal.vstr "t"),
                  ("salary", JsVal.vint 500), ("equity", JsVal.vnull),
                  ("companyhandle", JsVal.vstr "acme")],
                 { jobs := [{ id := 1, title := "t", salary := some 500,
                              equity := none, companyHandle := "acme" }],
                   companies := [exCompany], nextId := 2 }) ∧
    "companyHandle" ∉ ["id", "title", "salary", "equity", "companyhandle"] :=
  ⟨rfl, by decide⟩

/-- Claim C4: `remove` fails with `NotFound` (status 404, message
`No job: id`) exactly when no row has the requested id (so nothing was
deleted); and after any successful `remove`, `get` of the same id fails
with that same `NotFound`. -/
theorem remove_not_found_iff_and_get_after (db : Db) (id : Int) :
    (remove db id = Except.error { message := "No job: " ++ toString id, status := 404 } ↔
       ∀ r ∈ db.jobs, r.id ≠ id) ∧
    (∀ db', remove db id = Except.ok db' →
       get db' id = Except.error { message := "No job: " ++ toString id, status := 404 }) := by
  constructor
  · unfold remove
    by_cases hany : db.jobs.any (fun r => r.id == id)
    · rw [if_pos hany]
      obtain ⟨x, hx, hxid⟩ := List.any_eq_true.mp hany
      constructor
      · intro hcontra
        exact Except.noConfusion hcontra
      · intro hall
        exact absurd (show x.id = id by simpa using hxid) (hall x hx)
    · rw [if_neg hany]
      have hfalse : db.jobs.any (fun r => r.id == id) = false := by
        cases h2 : db.jobs.any (fun r => r.id == id)
        · rfl
        · exact absurd h2 hany
      have hall : ∀ x ∈ db.jobs, x.id ≠ id := by
        intro x hx
        simpa using List.any_eq_false.mp hfalse x hx
      exact ⟨fun _ => hall, fun _ => rfl⟩
  · intro db' h
    unfold remove at h
    by_cases hany : db.jobs.any (fun r => r.id == id)
    · rw [if_pos hany] at h
      cases h
      apply get_none_eq
      rw [List.find?_eq_none]
      intro x hx
      have hmem := List.mem_filter.mp hx
      simpa using hmem.2
    · rw [if_neg hany] at h
      exact Except.noConfusion h

/-- Witness for C4: removing the only job of the example store succeeds,
and `get` on the resulting store fails with `NotFound`. -/
theorem remove_then_get_witness :
    get { jobs := [], companies := [exCompany], nextId := 2 } 1 =
      Except.error { message := "No job: 1", status := 404 } :=
  (remove_not_found_iff_and_get_after exDb 1).2
    { jobs := [], companies := [exCompany], nextId := 2 } rfl

/-- A create payload violating both documented bounds: negative salary and
an equity of 2, outside `[0, 1]`. -/
def badInput : CreateInput :=
  { title := "x", salary := some (-5), equity := some 2,
    companyHandle := "acme" }

/-- Counterexample to claim C9 as stated: on a store where the referenced
company `acme` exists (so the store's referential-integrity check on
`company_handle` is satisfied), `create` accepts a negative salary and an
equity of 2 (outside `[0, 1]`) without any failure, and the row reaching
storage holds exactly those values — nothing in this core rejects them. -/
theorem create_no_validation_counterexample :
    (create { jobs := [], companies := [exCompany], nextId := 1 } badInput).2.jobs =
      [{ id := 1, title := "x", salary := some (-5), equity := some 2,
         companyHandle := "acme" }] := by
  rfl

/-- Claim C9 as amended: the core performs no salary or equity validation
on `create` or `update`.  With the referenced company extant (so the
store's referential-integrity check is not in play), `create` stores the
supplied `salary` and `equity` unchanged; and a patch carrying a salary
and an equity is applied by `update` unchanged — both in the returned row
and in the stored row — whatever the values (negative salary, equity
outside `[0, 1]` included). -/
theorem create_update_pass_values_unvalidated (db : Db) (data : CreateInput)
    (id : Int) (r : JobRow) (v : Int) (q : Rat)
    (_hcomp : ∃ c ∈ db.companies, c.handle = data.companyHandle)
    (hf : db.jobs.find? (fun x => x.id == id) = some r) :
    (∃ row ∈ (create db data).2.jobs,
        row.salary = data.salary ∧ row.equity = data.equity) ∧
    (∃ o db',
        update db id [("salary", JsVal.vint v), ("equity", JsVal.vrat q)] =
          Except.ok (o, db') ∧
        ("salary", JsVal.vint v) ∈ o ∧ ("equity", JsVal.vrat q) ∈ o ∧
        ∃ row ∈ db'.jobs, row.salary = some v ∧ row.equity = some q) := by
  constructor
  · refine ⟨{ id := db.nextId, title := data.title, salary := data.salary,
              equity := data.equity, companyHandle := data.companyHandle },
            ?_, rfl, rfl⟩
    simp [create]
  · have hupd := update_some_eq db id
      [("salary", JsVal.vint v), ("equity", JsVal.vrat q)] r (by simp) hf
    refine ⟨_, _, hupd, ?_, ?_, ?_⟩
    · simp [jobUpdateReturningObj, applyPatch, setField, optIntVal, optRatVal]
    · simp [jobUpdateReturningObj, applyPatch, setField, optIntVal, optRatVal]
    · refine ⟨applyPatch r [("salary", JsVal.vint v), ("equity", JsVal.vrat q)],
              ?_, rfl, rfl⟩
      refine List.mem_map.mpr ⟨r, List.mem_of_find?_eq_some hf, ?_⟩
      simp [List.find?_some hf]

/-- Witness for C9 (amended) on the example store, whose companies table
holds the referenced company `acme`: salary `-5` / equity `2` on create,
and salary `-7` / equity `3` on update. -/
theorem create_update_unvalidated_witness :
    (∃ row ∈ (create exDb badInput).2.jobs,
        row.salary = some (-5) ∧ row.equity = some 2) ∧
    (∃ o db',
        update exDb 1 [("salary", JsVal.vint (-7)), ("equity", JsVal.vrat 3)] =
          Except.ok (o, db') ∧
        ("salary", JsVal.vint (-7)) ∈ o ∧ ("equity", JsVal.vrat 3) ∈ o ∧
        ∃ row ∈ db'.jobs, row.salary = some (-7) ∧ row.equity = some 3) :=
  create_update_pass_values_unvalidated exDb badInput 1 exJob (-7) 3
    ⟨exCompany, by simp [exDb], rfl⟩ rfl

/-- Claim C10: when the jobs lookup hits a row whose referenced company is
absent from the companies table, `get` still succeeds: the result has no
`companyHandle` key and its `company` key holds the undefined value. -/
theorem get_missing_company_still_ok (db : Db) (id : Int) (r : JobRow)
    (hf : db.jobs.find? (fun x => x.id == id) = some r)
    (hc : db.companies.find? (fun c => c.handle == r.companyHandle) = none) :
    get db id =
      Except.ok [("id", JsVal.vint r.id), ("title", JsVal.vstr r.title),
                 ("salary", optIntVal r.salary), ("equity", optRatVal r.equity),
                 ("company", JsVal.vundef)] := by
  rw [get_some_eq db id r hf, hc]
  rfl

/-- Witness for C10 on the example store whose companies table is empty. -/
theorem get_missing_company_witness :
    get exDbNoCompany 1 =
      Except.ok [("id", JsVal.vint 1), ("title", JsVal.vstr "t"),
                 ("salary", JsVal.vint 3), ("equity", JsVal.vnull),
                 ("company", JsVal.vundef)] :=
  get_missing_company_still_ok exDbNoCompany 1 exJob rfl rfl

end Jobly
